import Mathlib

/-!
Verification of the Concerto resource validator and the class-declaration
comparers, as a shallow embedding in Lean 4.

The validation visitor (spec sections 4.2 to 4.5) is modelled from the
specification, because only its test suite
(packages/concerto-core/test/serializer/resourcevalidator.js) is part of the
available sources; the concrete message shapes and check ordering are pinned
by that test suite.  The class-declaration comparers are embedded directly
from packages/concerto-analysis (compare-config.ts and the comparer file).
-/

set_option linter.unusedVariables false

namespace Concerto

/-- A JavaScript number as the validator observes it: either a finite value
or one of the non-finite values (NaN and the infinities).  The validator only
inspects typeof and finiteness, so finite values are carried as integers. -/
inductive JSNum where
  | fin (n : Int)
  | nan
  | posInf
  | negInf
deriving DecidableEq, Repr

/-- Finiteness test, mirroring isFinite in JavaScript. -/
def JSNum.isFinite : JSNum → Bool
  | .fin _ => true
  | _ => false

/-- The result of String(n) in JavaScript for a number n. -/
def JSNum.toStr : JSNum → String
  | .fin n => toString n
  | .nan => "NaN"
  | .posInf => "Infinity"
  | .negInf => "-Infinity"

/-- The result of JSON.stringify on a bare number (non-finite numbers
serialize as null). -/
def JSNum.jsonString : JSNum → String
  | .fin n => toString n
  | _ => "null"

/-- A field declaration (spec section 3): relationship fields are the variant
with the flag set.  For reference types, typ holds the fully qualified name
of the target declaration; for primitive types it holds the primitive name. -/
structure FieldDecl where
  name : String
  typ : String
  isArray : Bool
  isOptional : Bool
  isRelationship : Bool
deriving DecidableEq, Repr

/-- A class declaration (spec section 3): qualified name split into namespace
and local name, an optional superclass reference (fully qualified), the
abstract flag, the concept flag, the resolved identifier field name when the
class is identifiable, and the list of fields declared on the class itself. -/
structure ClassDecl where
  ns : String
  name : String
  superName : Option String
  isAbstract : Bool
  isConcept : Bool
  idFieldName : Option String
  ownFields : List FieldDecl
deriving DecidableEq, Repr

/-- The fully qualified name of a class declaration. -/
def ClassDecl.fqn (c : ClassDecl) : String := c.ns ++ "." ++ c.name

/-- An enum declaration (spec section 3): a qualified name and the permitted
literal set, in declaration order. -/
structure EnumDecl where
  ns : String
  name : String
  literals : List String
deriving DecidableEq, Repr

/-- The fully qualified name of an enum declaration. -/
def EnumDecl.fqn (e : EnumDecl) : String := e.ns ++ "." ++ e.name

/-- A declaration in the declaration graph. -/
inductive Decl where
  | cls (c : ClassDecl)
  | enm (e : EnumDecl)
deriving DecidableEq, Repr

/-- The fully qualified name of a declaration. -/
def Decl.fqn : Decl → String
  | .cls c => c.fqn
  | .enm e => e.fqn

/-- The declaration graph consumed read-only by the validator. -/
structure ModelManager where
  decls : List Decl
deriving DecidableEq, Repr

/-- Validation options (spec section 6): the two recognized flags, both
defaulting to false. -/
structure Options where
  convertResourcesToRelationships : Bool := false
  permitResourcesForRelationships : Bool := false
deriving DecidableEq, Repr

/-- A runtime value (spec section 3, Instance Model).  vResource carries the
runtime type tag, the shadow identifier attribute, and the property map (the
declared identifier field lives inside the property map); vRelationship is a
lightweight reference; vJsObject stands for a plain JavaScript object that
JSON.stringify cannot serialize (for example a cyclic structure), carrying
the string its toString method produces. -/
inductive Value where
  | vString (s : String)
  | vNumber (n : JSNum)
  | vBool (b : Bool)
  | vDateTime (iso : String)
  | vArray (elems : List Value)
  | vConcept (typ : String) (props : List (String × Value))
  | vResource (typ : String) (shadowId : String) (props : List (String × Value))
  | vRelationship (typ : String) (id : String)
  | vJsObject (toStrRepr : String)

/-- The typeof label JavaScript reports for a value, as it appears in
violation messages. -/
def typeofLabel : Value → String
  | .vString _ => "string"
  | .vNumber _ => "number"
  | .vBool _ => "boolean"
  | _ => "object"

/-- Join rendered fragments with commas. -/
def joinComma : List String → String
  | [] => ""
  | [x] => x
  | x :: xs => x ++ "," ++ joinComma xs

mutual

/-- JSON.stringify as far as the validator needs it: none models the
serializer throwing (a value containing an unserializable object). -/
def jsonStringify : Value → Option String
  | .vString s => some ("\x22" ++ s ++ "\x22")
  | .vNumber n => some n.jsonString
  | .vBool b => some (if b then "true" else "false")
  | .vDateTime iso => some ("\x22" ++ iso ++ "\x22")
  | .vArray xs =>
    match jsonStringifyList xs with
    | some parts => some ("[" ++ joinComma parts ++ "]")
    | none => none
  | .vConcept _ ps =>
    match jsonStringifyProps ps with
    | some parts => some ("\x7b" ++ joinComma parts ++ "\x7d")
    | none => none
  | .vResource _ _ ps =>
    match jsonStringifyProps ps with
    | some parts => some ("\x7b" ++ joinComma parts ++ "\x7d")
    | none => none
  | .vRelationship _ _ => some "\x7b\x7d"
  | .vJsObject _ => none

/-- Serialize a list of array elements, failing if any element fails. -/
def jsonStringifyList : List Value → Option (List String)
  | [] => some []
  | x :: xs =>
    match jsonStringify x, jsonStringifyList xs with
    | some a, some rest => some (a :: rest)
    | _, _ => none

/-- Serialize a property map, failing if any entry fails. -/
def jsonStringifyProps : List (String × Value) → Option (List String)
  | [] => some []
  | (k, x) :: xs =>
    match jsonStringify x, jsonStringifyProps xs with
    | some a, some rest => some (("\x22" ++ k ++ "\x22:" ++ a) :: rest)
    | _, _ => none

end

mutual

/-- The toString rendering of a value in JavaScript: identifiable values
print as Resource or Relationship with their fully qualified identifier,
primitives print their String() form, arrays join their elements with
commas, and a plain object prints the string its toString produces. -/
def toStringRepr : Value → String
  | .vString s => s
  | .vNumber n => n.toStr
  | .vBool b => if b then "true" else "false"
  | .vDateTime iso => iso
  | .vArray xs => toStringReprList xs
  | .vConcept _ _ => "[object Object]"
  | .vResource t sh _ => "Resource \x7bid=" ++ t ++ "#" ++ sh ++ "\x7d"
  | .vRelationship t i => "Relationship \x7bid=" ++ t ++ "#" ++ i ++ "\x7d"
  | .vJsObject r => r

/-- Array toString: elements joined by commas. -/
def toStringReprList : List Value → String
  | [] => ""
  | [x] => toStringRepr x
  | x :: xs => toStringRepr x ++ "," ++ toStringReprList xs

end

/-- Look up a property by name on a property map. -/
def lookupProp (props : List (String × Value)) (k : String) : Option Value :=
  (props.find? (fun kv => kv.1 == k)).map (fun kv => kv.2)

/-- Set a property on a property map, appending when the key is absent
(mirrors JavaScript assignment to an object property). -/
def setProp : List (String × Value) → String → Value → List (String × Value)
  | [], k, v => [(k, v)]
  | kv :: rest, k, v => if kv.1 == k then (k, v) :: rest else kv :: setProp rest k v

/-- Read a string property, yielding the empty string when the property is
absent or not a string (the empty-or-absent test the identifier
normalization applies). -/
def getStringProp (props : List (String × Value)) (k : String) : String :=
  match lookupProp props k with
  | some (.vString s) => s
  | _ => ""

/-- The namespace part of a fully qualified name (everything before the last
dot; empty when the name has no dot). -/
def namespaceOf (qn : String) : String :=
  String.mk (((qn.toList.reverse.dropWhile (fun ch => !(ch == '.'))).drop 1).reverse)

/-- Substring test on strings, used to reason about violation messages. -/
def strContains (s pat : String) : Bool :=
  (List.range (s.toList.length + 1)).any (fun i => pat.toList.isPrefixOf (s.toList.drop i))

/-- The fixed primitive type set (spec section 3). -/
def isPrimitiveTypeName (t : String) : Bool :=
  t == "String" || t == "Integer" || t == "Long" || t == "Double" ||
  t == "Boolean" || t == "DateTime"

/-- The expected-type label of a field in violation messages: the declared
type name, suffixed with square brackets when the field is array-declared
(spec section 4.4). -/
def dataType (f : FieldDecl) : String :=
  f.typ ++ (if f.isArray then "[]" else "")

/-- A violation (spec section 7).  Violations are terminal: the first one
raised aborts the walk.  depthLimitExceeded is the graceful failure for
exhausted recursion depth (spec section 5). -/
inductive Violation where
  | typeNotFound (missingType : String)
  | notResource (root : String) (className : String) (valueStr : String)
  | notRelationship (root : String) (className : String) (valueStr : String)
  | abstractClass (className : String)
  | undeclaredField (ownerId : String) (propName : String) (className : String)
  | emptyIdentifier (root : String)
  | fieldTypeViolation (root : String) (propName : String) (valueStr : String)
      (typeOfValue : String) (expectedType : String)
  | invalidEnumValue (root : String) (valueStr : String) (enumName : String)
  | invalidFieldAssignment (root : String) (propName : String)
      (actualType : String) (expectedType : String)
  | depthLimitExceeded
deriving DecidableEq, Repr

/-- The human-readable message of a violation, with the exact shapes the
reference test suite pins down (spec section 6, violation rendering). -/
def Violation.render : Violation → String
  | .typeNotFound t =>
    "Type with fully qualified name " ++ t ++ " is not defined in namespace " ++
      namespaceOf t ++ "."
  | .notResource root cls v =>
    "Model violation in the \x22" ++ root ++ "\x22 instance. Class \x22" ++ cls ++
      "\x22 has the value of \x22" ++ v ++ "\x22. Expected a \x22Resource\x22 or a \x22Concept\x22."
  | .notRelationship root cls v =>
    "Model violation in the \x22" ++ root ++ "\x22 instance. Class \x22" ++ cls ++
      "\x22 has a value of \x22" ++ v ++ "\x22. Expected a \x22Relationship\x22."
  | .abstractClass cls =>
    "The class \x22" ++ cls ++ "\x22 is abstract and should not contain an instance."
  | .undeclaredField ownerId prop cls =>
    "Instance \x22" ++ ownerId ++ "\x22 has a property named \x22" ++ prop ++
      "\x22, which is not declared in \x22" ++ cls ++ "\x22."
  | .emptyIdentifier root =>
    "Instance \x22" ++ root ++ "\x22 has an empty identifier."
  | .fieldTypeViolation root prop v tov expected =>
    "Model violation in the \x22" ++ root ++ "\x22 instance. The field \x22" ++ prop ++
      "\x22 has a value of \x22" ++ v ++ "\x22 (type of value: \x22" ++ tov ++
      "\x22). Expected type of value: \x22" ++ expected ++ "\x22."
  | .invalidEnumValue root v enumName =>
    "Model violation in the \x22" ++ root ++ "\x22 instance. Invalid enum value of \x22" ++
      v ++ "\x22 for the field \x22" ++ enumName ++ "\x22."
  | .invalidFieldAssignment root prop actual expected =>
    "Instance \x22" ++ root ++ "\x22 has a property \x22" ++ prop ++
      "\x22 with type \x22" ++ actual ++ "\x22 that is not derived from \x22" ++ expected ++ "\x22."
  | .depthLimitExceeded => "Maximum validation depth exceeded."

/-- How a field-type violation renders the offending value and its
runtime-type label: identifiable values render as their fully qualified
identifier with their fully qualified type as the label; other primitives
render their String() form; object-shaped values render their JSON
serialization, degrading to their toString form when serialization fails
(spec sections 4.4 and 7: rendering must never throw). -/
def renderForReport : Value → String × String
  | .vResource t sh _ => (t ++ "#" ++ sh, t)
  | .vRelationship t i => (t ++ "#" ++ i, t)
  | .vString s => (s, "string")
  | .vNumber n => (n.toStr, "number")
  | .vBool b => ((if b then "true" else "false"), "boolean")
  | v => ((jsonStringify v).getD (toStringRepr v), typeofLabel v)

/-- Build the field-type violation for a present value (the TypeMismatch
shape of spec section 4.4): total by construction, so rendering failures can
never suppress the violation. -/
def reportFieldTypeViolationV (root : String) (f : FieldDecl) (v : Value) : Violation :=
  .fieldTypeViolation root f.name (renderForReport v).1 (renderForReport v).2 (dataType f)

/-- The Type Resolver contract (spec section 4.1): resolve a qualified name
in the declaration graph, failing with typeNotFound when absent. -/
def ModelManager.getType (mm : ModelManager) (qn : String) : Except Violation Decl :=
  match mm.decls.find? (fun d => d.fqn == qn) with
  | some d => .ok d
  | none => .error (.typeNotFound qn)

/-- The chain of (fully qualified) ancestor names of a type, following the
single-inheritance chain; fuel bounds the walk. -/
def superChain : Nat → ModelManager → String → List String
  | 0, _, _ => []
  | fuel + 1, mm, qn =>
    match mm.getType qn with
    | .ok (.cls c) =>
      match c.superName with
      | some s => s :: superChain fuel mm s
      | none => []
    | _ => []

/-- Assignability (inheritance substitutability, spec section 8): a runtime
type is assignable to a declared type when it is that type or the declared
type occurs in its transitive superclass chain. -/
def isAssignableTo (fuel : Nat) (mm : ModelManager) (typeName declared : String) : Bool :=
  typeName == declared || (superChain fuel mm typeName).contains declared

/-- The flattened field set of a class declaration (spec section 3): the
fields of all ancestors along the single-inheritance chain followed by the
own fields; resolving a missing superclass propagates typeNotFound
unchanged. -/
def getAllFields : Nat → ModelManager → ClassDecl → Except Violation (List FieldDecl)
  | 0, _, _ => .error .depthLimitExceeded
  | fuel + 1, mm, c =>
    match c.superName with
    | none => .ok c.ownFields
    | some s =>
      match mm.getType s with
      | .error e => .error e
      | .ok (.cls p) =>
        match getAllFields fuel mm p with
        | .error e => .error e
        | .ok inherited => .ok (inherited ++ c.ownFields)
      | .ok (.enm _) => .error (.typeNotFound s)

/-- Modelled from the spec: enum checking (spec section 4.4, enum rule; the
resourcevalidator.js implementation is not among the sources).  A string
value must be a member of the permitted-literal set; otherwise the
InvalidEnumValue violation names the offending value and the name of the
enum declaration, as the reference tests pin down. -/
def visitEnumDeclaration (e : EnumDecl) (v : Value) (root : String) : Except Violation Unit :=
  match v with
  | .vString s =>
    if e.literals.contains s then .ok () else .error (.invalidEnumValue root s e.name)
  | other => .error (.invalidEnumValue root (toStringRepr other) e.name)

/-- Modelled from the spec: the scalar primitive rule (spec section 4.4).
The runtime type must structurally match the declared primitive, and numeric
primitives additionally reject non-finite values, raising the same
TypeMismatch shape as a type-kind mismatch. -/
def checkPrimitive (f : FieldDecl) (v : Value) (root : String) : Except Violation Unit :=
  if f.typ == "String" then
    match v with
    | .vString _ => .ok ()
    | _ => .error (reportFieldTypeViolationV root f v)
  else if f.typ == "Integer" || f.typ == "Long" || f.typ == "Double" then
    match v with
    | .vNumber n => if n.isFinite then .ok () else .error (reportFieldTypeViolationV root f v)
    | _ => .error (reportFieldTypeViolationV root f v)
  else if f.typ == "Boolean" then
    match v with
    | .vBool _ => .ok ()
    | _ => .error (reportFieldTypeViolationV root f v)
  else if f.typ == "DateTime" then
    match v with
    | .vDateTime _ => .ok ()
    | _ => .error (reportFieldTypeViolationV root f v)
  else .error (reportFieldTypeViolationV root f v)

/-- The runtime type label of a value for the not-derived-from message. -/
def actualTypeName : Value → String
  | .vConcept t _ => t
  | .vResource t _ _ => t
  | .vRelationship t _ => t
  | v => typeofLabel v

/-- Modelled from the spec: the scalar relationship rule (spec section 4.5).
A Relationship value must be assignable to the declared target type; a
Resource value is legal only under one of the two permissive options (and
must then be assignable); anything else is not a relationship. -/
def checkRelationship (fuel : Nat) (mm : ModelManager) (opts : Options)
    (f : FieldDecl) (v : Value) (root : String) : Except Violation Unit :=
  match v with
  | .vRelationship t _ =>
    if isAssignableTo fuel mm t f.typ then .ok ()
    else .error (.invalidFieldAssignment root f.name t (dataType f))
  | .vResource t sh props =>
    if opts.convertResourcesToRelationships || opts.permitResourcesForRelationships then
      if isAssignableTo fuel mm t f.typ then .ok ()
      else .error (.invalidFieldAssignment root f.name t (dataType f))
    else .error (.notRelationship root f.typ (toStringRepr (.vResource t sh props)))
  | other => .error (.notRelationship root f.typ (toStringRepr other))

/-- Run a scalar check over every array element, stopping at the first
failing element (spec section 4.4, array rule). -/
def checkItems (checkOne : Value → Except Violation Unit) : List Value → Except Violation Unit
  | [] => .ok ()
  | x :: xs =>
    match checkOne x with
    | .error e => .error e
    | .ok _ => checkItems checkOne xs

/-- Modelled from the spec: relationship field checking (spec section 4.5).
An array-declared relationship field requires an array value (otherwise the
not-derived-from violation names the expected type with a square-bracket
suffix); each element then follows the scalar relationship rule. -/
def visitRelationshipDeclaration (fuel : Nat) (mm : ModelManager) (opts : Options)
    (f : FieldDecl) (v : Value) (root : String) : Except Violation Unit :=
  if f.isArray then
    match v with
    | .vArray elems => checkItems (fun x => checkRelationship fuel mm opts f x root) elems
    | other => .error (.invalidFieldAssignment root f.name (actualTypeName other) (dataType f))
  else checkRelationship fuel mm opts f v root

/-- Modelled from the spec: the scalar item rule of field checking (spec
section 4.4).  Primitives follow the primitive rule; a declared enum type
follows the enum rule; a declared class type requires the runtime type of an
identifiable or concept value to resolve (a resolution failure here is
reported as a field-type violation, as the reference tests pin down) and to
be assignable to the declared type, and then recursively validates the value
against its resolved declaration; a non-structured value reaches the class
check and is rejected there.  The opts parameter mirrors the validator
options every visitor receives, though this rule does not consult it. -/
def checkItem (recurse : ClassDecl → Value → String → Except Violation Unit)
    (fuel : Nat) (mm : ModelManager) (opts : Options)
    (f : FieldDecl) (v : Value) (root : String) : Except Violation Unit :=
  if isPrimitiveTypeName f.typ then checkPrimitive f v root
  else
    match mm.getType f.typ with
    | .error e => .error e
    | .ok (.enm e) => visitEnumDeclaration e v root
    | .ok (.cls declared) =>
      match v with
      | .vResource t sh props =>
        match mm.getType t with
        | .error _ => .error (reportFieldTypeViolationV root f (.vResource t sh props))
        | .ok (.cls actual) =>
          if isAssignableTo fuel mm t f.typ then recurse actual (.vResource t sh props) root
          else .error (.invalidFieldAssignment root f.name t (dataType f))
        | .ok (.enm _) => .error (.invalidFieldAssignment root f.name t (dataType f))
      | .vConcept t props =>
        match mm.getType t with
        | .error _ => .error (reportFieldTypeViolationV root f (.vConcept t props))
        | .ok (.cls actual) =>
          if isAssignableTo fuel mm t f.typ then recurse actual (.vConcept t props) root
          else .error (.invalidFieldAssignment root f.name t (dataType f))
        | .ok (.enm _) => .error (.invalidFieldAssignment root f.name t (dataType f))
      | other => recurse declared other root

/-- Modelled from the spec: field checking for a present value (spec section
4.4).  An array-declared field requires an array value (otherwise the
TypeMismatch names the expected type with a square-bracket suffix); each
element then follows the scalar item rule. -/
def visitFieldSome (recurse : ClassDecl → Value → String → Except Violation Unit)
    (fuel : Nat) (mm : ModelManager) (opts : Options)
    (f : FieldDecl) (v : Value) (root : String) : Except Violation Unit :=
  if f.isArray then
    match v with
    | .vArray elems => checkItems (fun x => checkItem recurse fuel mm opts f x root) elems
    | other => .error (reportFieldTypeViolationV root f other)
  else checkItem recurse fuel mm opts f v root

/-- Modelled from the spec: field checking (spec section 4.4).  An absent
value manifests as a value-of-undefined violation. -/
def visitField (recurse : ClassDecl → Value → String → Except Violation Unit)
    (fuel : Nat) (mm : ModelManager) (opts : Options)
    (f : FieldDecl) (v : Option Value) (root : String) : Except Violation Unit :=
  match v with
  | none => .error (.fieldTypeViolation root f.name "undefined" "undefined" (dataType f))
  | some v => visitFieldSome recurse fuel mm opts f v root

/-- Modelled from the spec: per-field dispatch within class checking (spec
section 4.3 step 6).  Absence is legal only for optional fields; a present
value follows the relationship rule or the field rule according to the
declaration. -/
def checkField (recurse : ClassDecl → Value → String → Except Violation Unit)
    (fuel : Nat) (mm : ModelManager) (opts : Options) (root : String)
    (f : FieldDecl) (v : Option Value) : Except Violation Unit :=
  match v with
  | none =>
    if f.isOptional then .ok ()
    else .error (.fieldTypeViolation root f.name "undefined" "undefined" (dataType f))
  | some v =>
    if f.isRelationship then visitRelationshipDeclaration fuel mm opts f v root
    else visitFieldSome recurse fuel mm opts f v root

/-- Check every field of the flattened set against the property map, in
field-declaration order, stopping at the first violation (spec section 4.3
step 6). -/
def checkAllFields (checkF : FieldDecl → Option Value → Except Violation Unit)
    (props : List (String × Value)) : List FieldDecl → Except Violation Unit
  | [] => .ok ()
  | f :: fs =>
    match checkF f (lookupProp props f.name) with
    | .error e => .error e
    | .ok _ => checkAllFields checkF props fs

/-- Modelled from the spec: additional-field detection (spec section 4.3
step 4).  Every key of the value must be in the flattened field set, with
the identifier-shadow key as the one permitted exception; the first
offending key is reported, and the carried instance identifier is the plain
identifier of the value being checked. -/
def undeclaredCheck (ownerId : String) (fieldNames : List String) (clsFqn : String)
    (props : List (String × Value)) : Except Violation Unit :=
  match props.find? (fun kv => !(kv.1 == "$identifier") && !(fieldNames.contains kv.1)) with
  | some kv => .error (.undeclaredField ownerId kv.1 clsFqn)
  | none => .ok ()

/-- Modelled from the spec: identifier normalization (spec section 4.3 step
5).  When the declared identifier field is empty or absent, a non-empty
shadow identifier is copied into the field; when both are empty the
EmptyIdentifier violation names the root identifier; otherwise the shadow is
set from the field.  Returns the normalized shadow and property map. -/
def normalizeIdentifier (idf : String) (sh : String) (props : List (String × Value))
    (root : String) : Except Violation (String × List (String × Value)) :=
  let idStr := getStringProp props idf
  if idStr == "" then
    if sh == "" then .error (.emptyIdentifier root)
    else .ok (sh, setProp props idf (.vString sh))
  else .ok (idStr, props)

/-- Modelled from the spec: class declaration checking (spec section 4.3),
with recursion into embedded values supplied as a parameter.  The value must
be a Resource or Concept; its runtime type is resolved (resolution failures
propagate unchanged); the resolved declaration must not be abstract; the
flattened field set is computed (propagating resolution failures from the
inheritance chain); additional fields are detected; the identifier is
normalized for identifiable declarations; and every field of the flattened
set is checked with the root identifier updated to the fully qualified
identifier of the value.  On success the normalized value is returned. -/
def visitClassDeclarationGo (recurse : ClassDecl → Value → String → Except Violation Unit)
    (fuel : Nat) (mm : ModelManager) (opts : Options)
    (d : ClassDecl) (obj : Value) (root : String) : Except Violation Value :=
  match obj with
  | .vResource t sh props =>
    match mm.getType t with
    | .error e => .error e
    | .ok (.enm _) => .error (.notResource root d.fqn (toStringRepr (.vResource t sh props)))
    | .ok (.cls c) =>
      if c.isAbstract then .error (.abstractClass c.fqn)
      else
        match getAllFields fuel mm c with
        | .error e => .error e
        | .ok fields =>
          match undeclaredCheck sh (fields.map (fun f => f.name)) c.fqn props with
          | .error e => .error e
          | .ok _ =>
            match c.idFieldName with
            | none =>
              match checkAllFields (checkField recurse fuel mm opts (t ++ "#" ++ sh)) props fields with
              | .error e => .error e
              | .ok _ => .ok (.vResource t sh props)
            | some idf =>
              match normalizeIdentifier idf sh props root with
              | .error e => .error e
              | .ok (sh2, props2) =>
                match checkAllFields (checkField recurse fuel mm opts (t ++ "#" ++ sh2)) props2 fields with
                | .error e => .error e
                | .ok _ => .ok (.vResource t sh2 props2)
  | .vConcept t props =>
    match mm.getType t with
    | .error e => .error e
    | .ok (.enm _) => .error (.notResource root d.fqn (toStringRepr (.vConcept t props)))
    | .ok (.cls c) =>
      if c.isAbstract then .error (.abstractClass c.fqn)
      else
        match getAllFields fuel mm c with
        | .error e => .error e
        | .ok fields =>
          match undeclaredCheck "undefined" (fields.map (fun f => f.name)) c.fqn props with
          | .error e => .error e
          | .ok _ =>
            match checkAllFields (checkField recurse fuel mm opts root) props fields with
            | .error e => .error e
            | .ok _ => .ok (.vConcept t props)
  | other => .error (.notResource root d.fqn (toStringRepr other))

/-- Modelled from the spec: the class-declaration visitor with the recursion
tied, bounded by fuel (spec section 5: excessive nesting fails gracefully
through the depth limit). -/
def visitClassDeclaration : Nat → ModelManager → Options → ClassDecl → Value → String →
    Except Violation Value
  | 0, _, _, _, _, _ => .error .depthLimitExceeded
  | fuel + 1, mm, opts, d, obj, root =>
    visitClassDeclarationGo
      (fun c v r =>
        match visitClassDeclaration fuel mm opts c v r with
        | .error e => .error e
        | .ok _ => .ok ())
      fuel mm opts d obj root

/-- The tied recursion used by the public field entry points. -/
def recurseAt (fuel : Nat) (mm : ModelManager) (opts : Options) :
    ClassDecl → Value → String → Except Violation Unit :=
  fun c v r =>
    match visitClassDeclaration fuel mm opts c v r with
    | .error e => .error e
    | .ok _ => .ok ()

/-- Modelled from the spec: the public field entry point (field accept in
the reference tests) with the recursion tied. -/
def visitFieldTop : Nat → ModelManager → Options → FieldDecl → Option Value → String →
    Except Violation Unit
  | 0, _, _, _, _, _ => .error .depthLimitExceeded
  | fuel + 1, mm, opts, f, v, root =>
    if f.isRelationship then
      match v with
      | none => .error (.fieldTypeViolation root f.name "undefined" "undefined" (dataType f))
      | some v => visitRelationshipDeclaration fuel mm opts f v root
    else visitField (recurseAt fuel mm opts) fuel mm opts f v root

/-- Modelled from the spec: the public validation dispatch (spec section
4.2) over the kind of the declaration. -/
def validate (fuel : Nat) (mm : ModelManager) (opts : Options) (d : Decl) (v : Value)
    (root : String) : Except Violation Unit :=
  match d with
  | .cls c =>
    match visitClassDeclaration fuel mm opts c v root with
    | .error e => .error e
    | .ok _ => .ok ()
  | .enm e => visitEnumDeclaration e v root

/-- A finding reported through the comparer context (concerto-analysis):
the rule key, the message, and the name of the element it refers to. -/
structure CompareFinding where
  key : String
  message : String
  elementName : String
deriving DecidableEq, Repr

/-- The class-declaration-added comparer from the concerto-analysis comparer
source: it reports a type-added finding exactly when the first declaration
is absent and the second present.  The imported getClassDeclarationType
helper is passed in as a parameter, since the comparer treats it as an
external dependency. -/
def classDeclarationAdded (getTypeName : ClassDecl → String)
    (a b : Option ClassDecl) : List CompareFinding :=
  match a, b with
  | none, some bd =>
    [{ key := getTypeName bd ++ "-added",
       message := "The " ++ getTypeName bd ++ " \x22" ++ bd.name ++ "\x22 was added",
       elementName := bd.name }]
  | _, _ => []

/-- The class-declaration-removed comparer from the concerto-analysis
comparer source: it reports a type-removed finding exactly when the first
declaration is present and the second absent. -/
def classDeclarationRemoved (getTypeName : ClassDecl → String)
    (a b : Option ClassDecl) : List CompareFinding :=
  match a, b with
  | some ad, none =>
    [{ key := getTypeName ad ++ "-removed",
       message := "The " ++ getTypeName ad ++ " \x22" ++ ad.name ++ "\x22 was removed",
       elementName := ad.name }]
  | _, _ => []

/-- The enum of the reference test model (org.acme.enumerations). -/
def animalType : EnumDecl :=
  { ns := "org.acme.enumerations", name := "AnimalType",
    literals := ["SHEEP_GOAT", "CATTLE", "PIG", "DEER_OTHER"] }

/-- The vehicle-type enum of the reference test model (org.acme.l1). -/
def vehicleTypeEnum : EnumDecl :=
  { ns := "org.acme.l1", name := "VehicleType",
    literals := ["CAR", "TRUCK", "SUV", "MOTORBIKE"] }

/-- The Base asset of the reference test model (org.acme.l1). -/
def baseDecl : ClassDecl :=
  { ns := "org.acme.l1", name := "Base", superName := none, isAbstract := false,
    isConcept := false, idFieldName := some "id",
    ownFields := [{ name := "id", typ := "String", isArray := false,
                    isOptional := false, isRelationship := false }] }

/-- The Person participant of the reference test model (org.acme.l1). -/
def personDecl : ClassDecl :=
  { ns := "org.acme.l1", name := "Person", superName := none, isAbstract := false,
    isConcept := false, idFieldName := some "ssn",
    ownFields := [{ name := "ssn", typ := "String", isArray := false,
                    isOptional := false, isRelationship := false }] }

/-- The Employee participant of the reference test model, extending Person
(the inherited identifier field is ssn). -/
def employeeDecl : ClassDecl :=
  { ns := "org.acme.l1", name := "Employee", superName := some "org.acme.l1.Person",
    isAbstract := false, isConcept := false, idFieldName := some "ssn", ownFields := [] }

/-- The Data concept of the reference test model (org.acme.l1). -/
def dataDecl : ClassDecl :=
  { ns := "org.acme.l1", name := "Data", superName := none, isAbstract := false,
    isConcept := true, idFieldName := none,
    ownFields := [{ name := "name", typ := "String", isArray := false,
                    isOptional := false, isRelationship := false }] }

/-- The Vehicle asset of the reference test model, extending Base
(org.acme.l2). -/
def vehicleDecl : ClassDecl :=
  { ns := "org.acme.l2", name := "Vehicle", superName := some "org.acme.l1.Base",
    isAbstract := false, isConcept := false, idFieldName := some "id",
    ownFields := [{ name := "numberOfWheels", typ := "Integer", isArray := false,
                    isOptional := false, isRelationship := false },
                  { name := "milage", typ := "Double", isArray := false,
                    isOptional := false, isRelationship := false }] }

/-- The PrivateOwner participant of the reference test model, extending
Person (org.acme.l2). -/
def privateOwnerDecl : ClassDecl :=
  { ns := "org.acme.l2", name := "PrivateOwner", superName := some "org.acme.l1.Person",
    isAbstract := false, isConcept := false, idFieldName := some "ssn",
    ownFields := [{ name := "employeeId", typ := "String", isArray := false,
                    isOptional := false, isRelationship := false }] }

/-- The TestConcept concept of the reference test model (org.acme.l3). -/
def testConceptDecl : ClassDecl :=
  { ns := "org.acme.l3", name := "TestConcept", superName := none, isAbstract := false,
    isConcept := true, idFieldName := none,
    ownFields := [{ name := "name", typ := "String", isArray := false,
                    isOptional := false, isRelationship := false }] }

/-- The Car asset of the reference test model, extending Vehicle
(org.acme.l3). -/
def carDecl : ClassDecl :=
  { ns := "org.acme.l3", name := "Car", superName := some "org.acme.l2.Vehicle",
    isAbstract := false, isConcept := false, idFieldName := some "id",
    ownFields :=
      [{ name := "model", typ := "String", isArray := false,
         isOptional := false, isRelationship := false },
       { name := "serviceHistory", typ := "String", isArray := true,
         isOptional := true, isRelationship := false },
       { name := "vehicleTypes", typ := "org.acme.l1.VehicleType", isArray := true,
         isOptional := true, isRelationship := false },
       { name := "owner", typ := "org.acme.l1.Person", isArray := false,
         isOptional := true, isRelationship := true },
       { name := "owners", typ := "org.acme.l1.Person", isArray := true,
         isOptional := true, isRelationship := true },
       { name := "containment", typ := "org.acme.l1.Person", isArray := true,
         isOptional := true, isRelationship := false },
       { name := "singlePerson", typ := "org.acme.l1.Person", isArray := false,
         isOptional := true, isRelationship := false }] }

/-- The declaration graph of the reference test suite with all four model
files loaded. -/
def testModel : ModelManager :=
  { decls := [.enm animalType, .enm vehicleTypeEnum, .cls baseDecl, .cls personDecl,
              .cls employeeDecl, .cls dataDecl, .cls vehicleDecl, .cls privateOwnerDecl,
              .cls testConceptDecl, .cls carDecl] }

/-- The declaration graph after deleting the org.acme.l1 model file (the
missing-super-type scenario of the reference tests). -/
def testModelNoL1 : ModelManager :=
  { decls := [.enm animalType, .cls vehicleDecl, .cls privateOwnerDecl,
              .cls testConceptDecl, .cls carDecl] }

/-- The declaration graph after deleting the org.acme.l3 model file (the
missing-type scenario of the reference tests). -/
def testModelNoL3 : ModelManager :=
  { decls := [.enm animalType, .enm vehicleTypeEnum, .cls baseDecl, .cls personDecl,
              .cls employeeDecl, .cls dataDecl, .cls vehicleDecl, .cls privateOwnerDecl] }

/-- Default options: both permissive flags off. -/
def opts0 : Options := {}

/-- The owner relationship field of the Car declaration. -/
def ownerField : FieldDecl :=
  { name := "owner", typ := "org.acme.l1.Person", isArray := false,
    isOptional := true, isRelationship := true }

/-- The owners relationship array field of the Car declaration. -/
def ownersField : FieldDecl :=
  { name := "owners", typ := "org.acme.l1.Person", isArray := true,
    isOptional := true, isRelationship := true }

/-- The containment embedded array field of the Car declaration. -/
def containmentField : FieldDecl :=
  { name := "containment", typ := "org.acme.l1.Person", isArray := true,
    isOptional := true, isRelationship := false }

/-- The singlePerson embedded field of the Car declaration. -/
def singlePersonField : FieldDecl :=
  { name := "singlePerson", typ := "org.acme.l1.Person", isArray := false,
    isOptional := true, isRelationship := false }

/-- The serviceHistory string array field of the Car declaration. -/
def serviceHistoryField : FieldDecl :=
  { name := "serviceHistory", typ := "String", isArray := true,
    isOptional := true, isRelationship := false }

/-- The milage double field of the Vehicle declaration. -/
def milageField : FieldDecl :=
  { name := "milage", typ := "Double", isArray := false,
    isOptional := false, isRelationship := false }

/-- Discriminator for the typeNotFound violation kind. -/
def Violation.isTypeNotFound : Violation → Bool
  | .typeNotFound _ => true
  | _ => false

/-- The values whose field-type-violation rendering goes through the JSON
serializer (typeof object in JavaScript, excluding the identifiable values,
which render as their identifier). -/
def rendersAsObject : Value → Bool
  | .vDateTime _ => true
  | .vArray _ => true
  | .vConcept _ _ => true
  | .vJsObject _ => true
  | _ => false

/-- Looking up the key just set yields the value just set. -/
theorem lookupProp_setProp_self (props : List (String × Value)) (k : String) (v : Value) :
    lookupProp (setProp props k v) k = some v := by
  induction props with
  | nil => simp [setProp, lookupProp]
  | cons kv rest ih =>
    by_cases h : kv.1 == k
    · simp [setProp, h, lookupProp]
    · simp only [setProp, h, Bool.false_eq_true, if_false, lookupProp, List.find?_cons_of_neg,
        h, not_false_eq_true]
      simpa [lookupProp] using ih

/-- Reading a string property just written yields the written string. -/
theorem getStringProp_setProp_self (props : List (String × Value)) (k s : String) :
    getStringProp (setProp props k (.vString s)) k = s := by
  simp [getStringProp, lookupProp_setProp_self]

/-- A successful identifier normalization leaves the shadow identifier equal
to the declared identifier field value, and non-empty. -/
theorem normalizeIdentifier_ok (idf sh : String) (props : List (String × Value))
    (root : String) (s2 : String) (p2 : List (String × Value)) :
    normalizeIdentifier idf sh props root = .ok (s2, p2) →
    getStringProp p2 idf = s2 ∧ s2 ≠ "" := by
  unfold normalizeIdentifier
  by_cases h1 : getStringProp props idf == ""
  · by_cases h2 : sh == ""
    · simp [h1, h2]
    · simp only [h1, if_true, h2, Bool.false_eq_true, if_false]
      intro h
      injection h with h
      obtain ⟨hs, hp⟩ := Prod.mk.injEq .. ▸ h
      subst hs; subst hp
      exact ⟨getStringProp_setProp_self props idf sh, by simpa using h2⟩
  · simp only [h1, Bool.false_eq_true, if_false]
    intro h
    injection h with h
    obtain ⟨hs, hp⟩ := Prod.mk.injEq .. ▸ h
    subst hs; subst hp
    exact ⟨rfl, by simpa using h1⟩

/-- C2 (amended): for every enum declaration with permitted literal set,
validating any literal in the set succeeds, and validating any string not in
the set raises InvalidEnumValue whose message names the offending value and
the name of the enum declaration (its short name, not the fully qualified
name, and not the field name). -/
theorem c2_enum_membership (e : EnumDecl) (s root : String) :
    (e.literals.contains s = true →
      visitEnumDeclaration e (.vString s) root = .ok ()) ∧
    (e.literals.contains s = false →
      visitEnumDeclaration e (.vString s) root = .error (.invalidEnumValue root s e.name)) ∧
    Violation.render (.invalidEnumValue root s e.name) =
      "Model violation in the \x22" ++ root ++ "\x22 instance. Invalid enum value of \x22" ++
        s ++ "\x22 for the field \x22" ++ e.name ++ "\x22." := by
  refine ⟨fun h => ?_, fun h => ?_, rfl⟩
  · simp only [visitEnumDeclaration, h, if_true]
  · simp only [visitEnumDeclaration, h, Bool.false_eq_true, if_false]

/-- C2 witness: the AnimalType enum of the reference tests accepts PIG and
rejects MISSING with the InvalidEnumValue violation naming the value and the
enum name. -/
theorem c2_witness :
    (["SHEEP_GOAT", "CATTLE", "PIG", "DEER_OTHER"].contains "PIG" = true ∧
      visitEnumDeclaration animalType (.vString "PIG") "TEST" = .ok ()) ∧
    (["SHEEP_GOAT", "CATTLE", "PIG", "DEER_OTHER"].contains "MISSING" = false ∧
      visitEnumDeclaration animalType (.vString "MISSING") "TEST" =
        .error (.invalidEnumValue "TEST" "MISSING" "AnimalType")) :=
  ⟨⟨by decide, (c2_enum_membership animalType "PIG" "TEST").1 (by decide)⟩,
   ⟨by decide, (c2_enum_membership animalType "MISSING" "TEST").2.1 (by decide)⟩⟩

/-- C2 counterexample: the claim as stated is false, because the
InvalidEnumValue message carries the short enum name AnimalType and does not
contain the fully qualified name org.acme.enumerations.AnimalType. -/
theorem c2_counterexample :
    visitEnumDeclaration animalType (.vString "MISSING") "TEST" =
      .error (.invalidEnumValue "TEST" "MISSING" "AnimalType") ∧
    strContains (Violation.render (.invalidEnumValue "TEST" "MISSING" "AnimalType"))
      animalType.fqn = false ∧
    strContains (Violation.render (.invalidEnumValue "TEST" "MISSING" "AnimalType"))
      "AnimalType" = true :=
  ⟨rfl, by decide, by decide⟩

/-- C4: a Resource value on a relationship-declared field raises the
relationship-mismatch violation when neither permissive option is enabled,
and is accepted without error (given an assignable type) when either the
convert-resources-to-relationships or the permit-resources-for-relationships
option is enabled. -/
theorem c4_resource_for_relationship (fuel : Nat) (mm : ModelManager) (opts : Options)
    (f : FieldDecl) (t sh root : String) (props : List (String × Value)) :
    (opts.convertResourcesToRelationships = false →
      opts.permitResourcesForRelationships = false →
      checkRelationship fuel mm opts f (.vResource t sh props) root =
        .error (.notRelationship root f.typ ("Resource \x7bid=" ++ t ++ "#" ++ sh ++ "\x7d"))) ∧
    ((opts.convertResourcesToRelationships || opts.permitResourcesForRelationships) = true →
      isAssignableTo fuel mm t f.typ = true →
      checkRelationship fuel mm opts f (.vResource t sh props) root = .ok ()) := by
  constructor
  · intro h1 h2
    simp [checkRelationship, h1, h2, toStringRepr]
  · intro h1 h2
    simp [checkRelationship, h1, h2]

/-- C4 witness: an Employee resource on the Person-typed owner relationship
field of Car is rejected with the expected-a-Relationship violation under
default options, and accepted when either permissive option is set. -/
theorem c4_witness :
    checkRelationship 6 testModel opts0 ownerField
      (.vResource "org.acme.l1.Employee" "DAN" [("ssn", .vString "DAN")]) "TEST" =
      .error (.notRelationship "TEST" "org.acme.l1.Person"
        "Resource \x7bid=org.acme.l1.Employee#DAN\x7d") ∧
    checkRelationship 6 testModel { convertResourcesToRelationships := true } ownerField
      (.vResource "org.acme.l1.Employee" "DAN" [("ssn", .vString "DAN")]) "TEST" = .ok () ∧
    checkRelationship 6 testModel { permitResourcesForRelationships := true } ownerField
      (.vResource "org.acme.l1.Employee" "DAN" [("ssn", .vString "DAN")]) "TEST" = .ok () :=
  ⟨(c4_resource_for_relationship 6 testModel opts0 ownerField
      "org.acme.l1.Employee" "DAN" "TEST" [("ssn", .vString "DAN")]).1 rfl rfl,
   (c4_resource_for_relationship 6 testModel { convertResourcesToRelationships := true }
      ownerField "org.acme.l1.Employee" "DAN" "TEST" [("ssn", .vString "DAN")]).2 rfl (by rfl),
   (c4_resource_for_relationship 6 testModel { permitResourcesForRelationships := true }
      ownerField "org.acme.l1.Employee" "DAN" "TEST" [("ssn", .vString "DAN")]).2 rfl (by rfl)⟩

/-- C8: numeric primitive fields (Integer, Long, Double) reject a non-finite
number, such as NaN, with a TypeMismatch violation of the same shape as a
wrong-type-kind mismatch: the same fieldTypeViolation constructor carrying
the rendered value, the runtime-type label number, and the expected declared
type, not a distinct error category. -/
theorem c8_nonfinite_numeric (f : FieldDecl) (n : JSNum) (root s : String) :
    ((f.typ = "Integer" ∨ f.typ = "Long" ∨ f.typ = "Double") → n.isFinite = false →
      checkPrimitive f (.vNumber n) root =
        .error (.fieldTypeViolation root f.name n.toStr "number" (dataType f))) ∧
    ((f.typ = "Integer" ∨ f.typ = "Long" ∨ f.typ = "Double") →
      checkPrimitive f (.vString s) root =
        .error (.fieldTypeViolation root f.name s "string" (dataType f))) := by
  constructor
  · intro h hn
    rcases h with h | h | h <;>
      simp [checkPrimitive, h, hn, reportFieldTypeViolationV, renderForReport]
  · intro h
    rcases h with h | h | h <;>
      simp [checkPrimitive, h, reportFieldTypeViolationV, renderForReport]

/-- C8 witness: the Double field milage given NaN raises the same
fieldTypeViolation shape as a string given to it. -/
theorem c8_witness :
    checkPrimitive milageField (.vNumber .nan) "org.acme.l3.Car#foo" =
      .error (.fieldTypeViolation "org.acme.l3.Car#foo" "milage" "NaN" "number" "Double") ∧
    checkPrimitive milageField (.vString "fast") "org.acme.l3.Car#foo" =
      .error (.fieldTypeViolation "org.acme.l3.Car#foo" "milage" "fast" "string" "Double") :=
  ⟨(c8_nonfinite_numeric milageField .nan "org.acme.l3.Car#foo" "fast").1
      (Or.inr (Or.inr rfl)) rfl,
   (c8_nonfinite_numeric milageField .nan "org.acme.l3.Car#foo" "fast").2
      (Or.inr (Or.inr rfl))⟩

/-- C9: when the JSON rendering of an object-shaped value fails (for example
on a cyclic structure), the violation-message renderer raises no secondary
error: the field-type violation is still produced, with the toString
fallback standing in for the value rendering. -/
theorem c9_render_fallback (root : String) (f : FieldDecl) (v : Value) :
    rendersAsObject v = true → jsonStringify v = none →
    reportFieldTypeViolationV root f v =
      .fieldTypeViolation root f.name (toStringRepr v) (typeofLabel v) (dataType f) := by
  intro h1 h2
  cases v with
  | vDateTime iso => simp [jsonStringify] at h2
  | vArray xs => simp [reportFieldTypeViolationV, renderForReport, h2]
  | vConcept t ps => simp [reportFieldTypeViolationV, renderForReport, h2]
  | vJsObject r => simp [reportFieldTypeViolationV, renderForReport, h2]
  | vString s => simp [rendersAsObject] at h1
  | vNumber n => simp [rendersAsObject] at h1
  | vBool b => simp [rendersAsObject] at h1
  | vResource t sh ps => simp [rendersAsObject] at h1
  | vRelationship t i => simp [rendersAsObject] at h1

/-- C9 witness: the unserializable object of the reference tests (whose
toString form is the fixed placeholder) still produces the violation, with
the placeholder in the message. -/
theorem c9_witness :
    jsonStringify (.vJsObject "[object Object]") = none ∧
    reportFieldTypeViolationV "id"
      { name := "property", typ := "T", isArray := false,
        isOptional := false, isRelationship := false }
      (.vJsObject "[object Object]") =
      .fieldTypeViolation "id" "property" "[object Object]" "object" "T" ∧
    Violation.render
      (.fieldTypeViolation "id" "property" "[object Object]" "object" "T") =
      "Model violation in the \x22id\x22 instance. The field \x22property\x22 has a value of \x22[object Object]\x22 (type of value: \x22object\x22). Expected type of value: \x22T\x22." :=
  ⟨rfl,
   c9_render_fallback "id"
     { name := "property", typ := "T", isArray := false,
       isOptional := false, isRelationship := false }
     (.vJsObject "[object Object]") rfl rfl,
   rfl⟩

/-- C10: the class-declaration comparers report a type-added finding exactly
when the first declaration is absent and the second present, a type-removed
finding exactly when the first is present and the second absent, and nothing
when both are present or both absent. -/
theorem c10_class_comparers (g : ClassDecl → String) (a b : Option ClassDecl) :
    (∀ bd, a = none → b = some bd →
      classDeclarationAdded g a b =
        [{ key := g bd ++ "-added",
           message := "The " ++ g bd ++ " \x22" ++ bd.name ++ "\x22 was added",
           elementName := bd.name }]) ∧
    (a ≠ none ∨ b = none → classDeclarationAdded g a b = []) ∧
    (∀ ad, a = some ad → b = none →
      classDeclarationRemoved g a b =
        [{ key := g ad ++ "-removed",
           message := "The " ++ g ad ++ " \x22" ++ ad.name ++ "\x22 was removed",
           elementName := ad.name }]) ∧
    (a = none ∨ b ≠ none → classDeclarationRemoved g a b = []) := by
  refine ⟨fun bd ha hb => ?_, fun h => ?_, fun ad ha hb => ?_, fun h => ?_⟩
  · subst ha; subst hb; rfl
  · cases a with
    | none =>
      cases b with
      | none => rfl
      | some bd => rcases h with h | h <;> simp at h
    | some ad => cases b <;> rfl
  · subst ha; subst hb; rfl
  · cases a with
    | none => cases b <;> rfl
    | some ad =>
      cases b with
      | none => rcases h with h | h <;> simp at h
      | some bd => rfl

/-- C10 witness: concrete comparer runs for the four presence combinations
of a declaration. -/
theorem c10_witness :
    classDeclarationAdded (fun _ => "asset") none (some baseDecl) =
      [{ key := "asset-added", message := "The asset \x22Base\x22 was added",
         elementName := "Base" }] ∧
    classDeclarationAdded (fun _ => "asset") (some baseDecl) (some baseDecl) = [] ∧
    classDeclarationRemoved (fun _ => "asset") (some baseDecl) none =
      [{ key := "asset-removed", message := "The asset \x22Base\x22 was removed",
         elementName := "Base" }] ∧
    classDeclarationRemoved (fun _ => "asset") none none = [] :=
  ⟨(c10_class_comparers (fun _ => "asset") none (some baseDecl)).1 baseDecl rfl rfl,
   (c10_class_comparers (fun _ => "asset") (some baseDecl) (some baseDecl)).2.1
     (Or.inl (by simp)),
   (c10_class_comparers (fun _ => "asset") (some baseDecl) none).2.2.1 baseDecl rfl rfl,
   (c10_class_comparers (fun _ => "asset") none none).2.2.2 (Or.inl rfl)⟩

/-- C1: for a field declared with target type T (relationship or embedded),
a value whose resolved runtime type is assignable to T (it is T itself or T
occurs in its transitive superclass chain) is accepted, while a value whose
resolved type is not assignable to T (in particular a supertype of T or an
unrelated type, since the inheritance chain is acyclic) raises the
not-derived-from mismatch violation; for embedded values acceptance proceeds
into the recursive class validation of the value. -/
theorem c1_inheritance_substitutability
    (fuel : Nat) (mm : ModelManager) (opts : Options) (f : FieldDecl)
    (t i sh root : String) (props : List (String × Value))
    (recurse : ClassDecl → Value → String → Except Violation Unit)
    (declared actual : ClassDecl) :
    (f.isRelationship = true → isAssignableTo fuel mm t f.typ = true →
      checkRelationship fuel mm opts f (.vRelationship t i) root = .ok ()) ∧
    (f.isRelationship = true → isAssignableTo fuel mm t f.typ = false →
      checkRelationship fuel mm opts f (.vRelationship t i) root =
        .error (.invalidFieldAssignment root f.name t (dataType f))) ∧
    (isPrimitiveTypeName f.typ = false → mm.getType f.typ = .ok (.cls declared) →
      mm.getType t = .ok (.cls actual) → isAssignableTo fuel mm t f.typ = true →
      recurse actual (.vResource t sh props) root = .ok () →
      checkItem recurse fuel mm opts f (.vResource t sh props) root = .ok ()) ∧
    (isPrimitiveTypeName f.typ = false → mm.getType f.typ = .ok (.cls declared) →
      mm.getType t = .ok (.cls actual) → isAssignableTo fuel mm t f.typ = false →
      checkItem recurse fuel mm opts f (.vResource t sh props) root =
        .error (.invalidFieldAssignment root f.name t (dataType f))) := by
  refine ⟨fun _ h2 => ?_, fun _ h2 => ?_, fun h1 h2 h3 h4 h5 => ?_, fun h1 h2 h3 h4 => ?_⟩
  · simp only [checkRelationship, h2, if_true]
  · simp only [checkRelationship, h2, Bool.false_eq_true, if_false]
  · simp only [checkItem, h1, Bool.false_eq_true, if_false, h2, h3, h4, if_true, h5]
  · simp only [checkItem, h1, Bool.false_eq_true, if_false, h2, h3, h4]

/-- C1 witness: a PrivateOwner relationship (a transitive subtype of Person)
is accepted on the owner field of Car, a Base relationship (an unrelated
type) is rejected, an Employee resource is accepted on the embedded
Person-typed singlePerson field, and a Base resource is rejected there. -/
theorem c1_witness :
    checkRelationship 6 testModel opts0 ownerField
      (.vRelationship "org.acme.l2.PrivateOwner" "DAN") "TEST" = .ok () ∧
    checkRelationship 6 testModel opts0 ownerField
      (.vRelationship "org.acme.l1.Base" "DAN") "TEST" =
      .error (.invalidFieldAssignment "TEST" "owner" "org.acme.l1.Base" "org.acme.l1.Person") ∧
    checkItem (recurseAt 5 testModel opts0) 6 testModel opts0 singlePersonField
      (.vResource "org.acme.l1.Employee" "abc" [("ssn", .vString "abc")]) "TEST" = .ok () ∧
    checkItem (recurseAt 5 testModel opts0) 6 testModel opts0 singlePersonField
      (.vResource "org.acme.l1.Base" "DAN" [("id", .vString "DAN")]) "TEST" =
      .error (.invalidFieldAssignment "TEST" "singlePerson" "org.acme.l1.Base"
        "org.acme.l1.Person") :=
  ⟨(c1_inheritance_substitutability 6 testModel opts0 ownerField
      "org.acme.l2.PrivateOwner" "DAN" "" "TEST" [] (recurseAt 5 testModel opts0)
      personDecl privateOwnerDecl).1 rfl (by rfl),
   (c1_inheritance_substitutability 6 testModel opts0 ownerField
      "org.acme.l1.Base" "DAN" "" "TEST" [] (recurseAt 5 testModel opts0)
      personDecl baseDecl).2.1 rfl (by rfl),
   (c1_inheritance_substitutability 6 testModel opts0 singlePersonField
      "org.acme.l1.Employee" "" "abc" "TEST" [("ssn", .vString "abc")]
      (recurseAt 5 testModel opts0) personDecl employeeDecl).2.2.1
      rfl rfl rfl (by rfl) (by rfl),
   (c1_inheritance_substitutability 6 testModel opts0 singlePersonField
      "org.acme.l1.Base" "" "DAN" "TEST" [("id", .vString "DAN")]
      (recurseAt 5 testModel opts0) personDecl baseDecl).2.2.2
      rfl rfl rfl (by rfl)⟩

/-- Running the element checks over an array stops at the first failing
element: all elements before it pass, and its violation is the result. -/
theorem checkItems_first_error (checkOne : Value → Except Violation Unit)
    (pre rest : List Value) (x : Value) (e : Violation) :
    (∀ y ∈ pre, checkOne y = .ok ()) → checkOne x = .error e →
    checkItems checkOne (pre ++ x :: rest) = .error e := by
  induction pre with
  | nil => intro _ hx; simp only [List.nil_append, checkItems, hx]
  | cons y pre ih =>
    intro hp hx
    have hy : checkOne y = .ok () := hp y (by simp)
    simp only [List.cons_append, checkItems, hy]
    exact ih (fun z hz => hp z (by simp [hz])) hx

/-- C6: a non-array value on an array-declared field always fails, with the
expected type rendered with the square-bracket suffix, both for plain fields
(the TypeMismatch shape) and for relationship fields (the not-derived-from
shape); for an array value every element is checked independently and the
first failing element determines the single raised violation. -/
theorem c6_array_cardinality
    (recurse : ClassDecl → Value → String → Except Violation Unit)
    (fuel : Nat) (mm : ModelManager) (opts : Options) (f : FieldDecl)
    (v : Value) (root : String) (pre rest : List Value) (x : Value) (e : Violation) :
    (f.isArray = true → (∀ elems, v ≠ .vArray elems) →
      visitFieldSome recurse fuel mm opts f v root =
        .error (.fieldTypeViolation root f.name (renderForReport v).1
          (renderForReport v).2 (f.typ ++ "[]"))) ∧
    (f.isArray = true → (∀ elems, v ≠ .vArray elems) →
      visitRelationshipDeclaration fuel mm opts f v root =
        .error (.invalidFieldAssignment root f.name (actualTypeName v) (f.typ ++ "[]"))) ∧
    (f.isArray = true →
      (∀ y ∈ pre, checkItem recurse fuel mm opts f y root = .ok ()) →
      checkItem recurse fuel mm opts f x root = .error e →
      visitFieldSome recurse fuel mm opts f (.vArray (pre ++ x :: rest)) root = .error e) := by
  refine ⟨fun h1 h2 => ?_, fun h1 h2 => ?_, fun h1 h2 h3 => ?_⟩
  · have hd : dataType f = f.typ ++ "[]" := by simp [dataType, h1]
    cases v with
    | vArray elems => exact absurd rfl (h2 elems)
    | vString s =>
      simp only [visitFieldSome, h1, if_true, reportFieldTypeViolationV, hd]
    | vNumber n =>
      simp only [visitFieldSome, h1, if_true, reportFieldTypeViolationV, hd]
    | vBool b =>
      simp only [visitFieldSome, h1, if_true, reportFieldTypeViolationV, hd]
    | vDateTime iso =>
      simp only [visitFieldSome, h1, if_true, reportFieldTypeViolationV, hd]
    | vConcept t ps =>
      simp only [visitFieldSome, h1, if_true, reportFieldTypeViolationV, hd]
    | vResource t sh ps =>
      simp only [visitFieldSome, h1, if_true, reportFieldTypeViolationV, hd]
    | vRelationship t i =>
      simp only [visitFieldSome, h1, if_true, reportFieldTypeViolationV, hd]
    | vJsObject r =>
      simp only [visitFieldSome, h1, if_true, reportFieldTypeViolationV, hd]
  · have hd : dataType f = f.typ ++ "[]" := by simp [dataType, h1]
    cases v with
    | vArray elems => exact absurd rfl (h2 elems)
    | vString s => simp only [visitRelationshipDeclaration, h1, if_true, hd]
    | vNumber n => simp only [visitRelationshipDeclaration, h1, if_true, hd]
    | vBool b => simp only [visitRelationshipDeclaration, h1, if_true, hd]
    | vDateTime iso => simp only [visitRelationshipDeclaration, h1, if_true, hd]
    | vConcept t ps => simp only [visitRelationshipDeclaration, h1, if_true, hd]
    | vResource t sh ps => simp only [visitRelationshipDeclaration, h1, if_true, hd]
    | vRelationship t i => simp only [visitRelationshipDeclaration, h1, if_true, hd]
    | vJsObject r => simp only [visitRelationshipDeclaration, h1, if_true, hd]
  · simp only [visitFieldSome, h1, if_true]
    exact checkItems_first_error _ pre rest x e h2 h3

/-- C6 witness: a bare string on the String array field serviceHistory fails
naming the expected type with the bracket suffix, a single relationship on
the relationship array field owners fails naming the bracketed type, and the
array FOO followed by 1 fails on the element 1, not on FOO. -/
theorem c6_witness :
    visitFieldSome (recurseAt 5 testModel opts0) 6 testModel opts0 serviceHistoryField
      (.vString "FOO") "TEST" =
      .error (.fieldTypeViolation "TEST" "serviceHistory" "FOO" "string" "String[]") ∧
    visitRelationshipDeclaration 6 testModel opts0 ownersField
      (.vRelationship "org.acme.l1.Person" "123") "org.acme.l3.Car#123" =
      .error (.invalidFieldAssignment "org.acme.l3.Car#123" "owners" "org.acme.l1.Person"
        "org.acme.l1.Person[]") ∧
    visitFieldSome (recurseAt 5 testModel opts0) 6 testModel opts0 serviceHistoryField
      (.vArray [.vString "FOO", .vNumber (.fin 1)]) "TEST" =
      .error (.fieldTypeViolation "TEST" "serviceHistory" "1" "number" "String[]") :=
  ⟨(c6_array_cardinality (recurseAt 5 testModel opts0) 6 testModel opts0 serviceHistoryField
      (.vString "FOO") "TEST" [] [] (.vString "FOO")
      (.fieldTypeViolation "TEST" "serviceHistory" "FOO" "string" "String[]")).1
      rfl (fun _ h => Value.noConfusion h),
   (c6_array_cardinality (recurseAt 5 testModel opts0) 6 testModel opts0 ownersField
      (.vRelationship "org.acme.l1.Person" "123") "org.acme.l3.Car#123" [] []
      (.vRelationship "org.acme.l1.Person" "123")
      (.invalidFieldAssignment "org.acme.l3.Car#123" "owners" "org.acme.l1.Person"
        "org.acme.l1.Person[]")).2.1 rfl (fun _ h => Value.noConfusion h),
   (c6_array_cardinality (recurseAt 5 testModel opts0) 6 testModel opts0 serviceHistoryField
      (.vArray [.vString "FOO", .vNumber (.fin 1)]) "TEST"
      [.vString "FOO"] [] (.vNumber (.fin 1))
      (.fieldTypeViolation "TEST" "serviceHistory" "1" "number" "String[]")).2.2
      rfl
      (fun y hy => by
        rcases List.mem_singleton.mp hy with rfl
        rfl)
      (by rfl)⟩

/-- C3: after a successful visit of an identifiable class declaration, the
shadow identifier of the resulting value equals the declared identifier
field value and is non-empty (the validator copies the shadow forward into
an empty identifier field, and otherwise sets the shadow from the field);
and when both the identifier field and the shadow identifier are empty, the
visit raises EmptyIdentifier naming the root identifier. -/
theorem c3_identifier_normalization
    (recurse : ClassDecl → Value → String → Except Violation Unit)
    (fuel : Nat) (mm : ModelManager) (opts : Options) (d : ClassDecl)
    (t sh root : String) (props : List (String × Value))
    (c : ClassDecl) (idf : String) (fields : List FieldDecl) :
    (∀ sh2 props2,
      mm.getType t = .ok (.cls c) → c.idFieldName = some idf →
      visitClassDeclarationGo recurse fuel mm opts d (.vResource t sh props) root =
        .ok (.vResource t sh2 props2) →
      getStringProp props2 idf = sh2 ∧ sh2 ≠ "") ∧
    (mm.getType t = .ok (.cls c) → c.isAbstract = false → c.idFieldName = some idf →
      getAllFields fuel mm c = .ok fields →
      undeclaredCheck sh (fields.map (fun f => f.name)) c.fqn props = .ok () →
      getStringProp props idf = "" → sh = "" →
      visitClassDeclarationGo recurse fuel mm opts d (.vResource t sh props) root =
        .error (.emptyIdentifier root)) := by
  constructor
  · intro sh2 props2 h1 h2 hok
    simp only [visitClassDeclarationGo, h1] at hok
    by_cases habs : c.isAbstract
    · simp only [habs, if_true] at hok
      exact Except.noConfusion hok
    · simp only [habs, Bool.false_eq_true, if_false] at hok
      cases hga : getAllFields fuel mm c with
      | error e =>
        simp only [hga] at hok
        exact Except.noConfusion hok
      | ok flds =>
        simp only [hga] at hok
        cases hun : undeclaredCheck sh (flds.map (fun f => f.name)) c.fqn props with
        | error e =>
          simp only [hun] at hok
          exact Except.noConfusion hok
        | ok u =>
          simp only [hun, h2] at hok
          cases hni : normalizeIdentifier idf sh props root with
          | error e =>
            simp only [hni] at hok
            exact Except.noConfusion hok
          | ok pr =>
            obtain ⟨s2, p2⟩ := pr
            simp only [hni] at hok
            cases hca : checkAllFields
                (checkField recurse fuel mm opts (t ++ "#" ++ s2)) p2 flds with
            | error e =>
              simp only [hca] at hok
              exact Except.noConfusion hok
            | ok u2 =>
              simp only [hca, Except.ok.injEq, Value.vResource.injEq] at hok
              obtain ⟨-, hsh, hpr⟩ := hok
              subst hsh; subst hpr
              exact normalizeIdentifier_ok idf sh props root _ _ hni
  · intro h1 habs h2 hga hun hid hsh
    subst hsh
    simp only [visitClassDeclarationGo, h1, habs, Bool.false_eq_true, if_false, hga, hun, h2,
      normalizeIdentifier, hid]
    simp

/-- C3 witness: a Car instance with identifier field foo and an empty shadow
validates successfully with the shadow normalized to foo (equal to the
identifier field), while a Car instance with both the identifier field and
the shadow empty raises EmptyIdentifier. -/
theorem c3_witness :
    visitClassDeclarationGo (recurseAt 5 testModel opts0) 5 testModel opts0 carDecl
      (.vResource "org.acme.l3.Car" ""
        [("id", .vString "foo"), ("model", .vString "Ford"),
         ("numberOfWheels", .vNumber (.fin 4)), ("milage", .vNumber (.fin 3))]) "ABC" =
      .ok (.vResource "org.acme.l3.Car" "foo"
        [("id", .vString "foo"), ("model", .vString "Ford"),
         ("numberOfWheels", .vNumber (.fin 4)), ("milage", .vNumber (.fin 3))]) ∧
    (getStringProp
        [("id", .vString "foo"), ("model", .vString "Ford"),
         ("numberOfWheels", .vNumber (.fin 4)), ("milage", .vNumber (.fin 3))] "id" = "foo" ∧
      "foo" ≠ "") ∧
    visitClassDeclarationGo (recurseAt 5 testModel opts0) 5 testModel opts0 carDecl
      (.vResource "org.acme.l3.Car" ""
        [("id", .vString ""), ("model", .vString "Ford"),
         ("numberOfWheels", .vNumber (.fin 4)), ("milage", .vNumber (.fin 3))]) "ABC" =
      .error (.emptyIdentifier "ABC") :=
  ⟨by rfl,
   (c3_identifier_normalization (recurseAt 5 testModel opts0) 5 testModel opts0 carDecl
      "org.acme.l3.Car" "" "ABC"
      [("id", .vString "foo"), ("model", .vString "Ford"),
       ("numberOfWheels", .vNumber (.fin 4)), ("milage", .vNumber (.fin 3))]
      carDecl "id" []).1 "foo"
      [("id", .vString "foo"), ("model", .vString "Ford"),
       ("numberOfWheels", .vNumber (.fin 4)), ("milage", .vNumber (.fin 3))]
      rfl rfl (by rfl),
   (c3_identifier_normalization (recurseAt 5 testModel opts0) 5 testModel opts0 carDecl
      "org.acme.l3.Car" "" "ABC"
      [("id", .vString ""), ("model", .vString "Ford"),
       ("numberOfWheels", .vNumber (.fin 4)), ("milage", .vNumber (.fin 3))]
      carDecl "id"
      (baseDecl.ownFields ++ vehicleDecl.ownFields ++ carDecl.ownFields)).2
      rfl rfl rfl (by rfl) (by rfl) (by rfl) rfl⟩

/-- C5 (amended): a TypeNotFound failure of the Type Resolver is propagated
unchanged when it arises from resolving the runtime type of the value
visited at a class declaration, or from flattening the inheritance chain of
the resolved declaration (and the resolver error names the missing type,
whose qualified name carries the missing namespace); however, inside item
checking of a field value, a failure to resolve the runtime type of the
value is reported as a field-type violation rather than propagated. -/
theorem c5_typenotfound_propagation
    (n fuel : Nat) (mm : ModelManager) (opts : Options) (d : ClassDecl)
    (t sh root t2 sh2 : String) (props props2 : List (String × Value))
    (e : Violation) (c : ClassDecl) (f : FieldDecl)
    (recurse : ClassDecl → Value → String → Except Violation Unit) :
    (mm.getType t = .error e →
      visitClassDeclaration (n + 1) mm opts d (.vResource t sh props) root = .error e) ∧
    (mm.getType t = .ok (.cls c) → c.isAbstract = false → getAllFields n mm c = .error e →
      visitClassDeclaration (n + 1) mm opts d (.vResource t sh props) root = .error e) ∧
    (∀ qn, mm.decls.find? (fun dd => dd.fqn == qn) = none →
      mm.getType qn = .error (.typeNotFound qn)) ∧
    (isPrimitiveTypeName f.typ = false → mm.getType f.typ = .ok (.cls c) →
      mm.getType t2 = .error e →
      checkItem recurse fuel mm opts f (.vResource t2 sh2 props2) root =
        .error (.fieldTypeViolation root f.name (t2 ++ "#" ++ sh2) t2 (dataType f))) := by
  refine ⟨fun h => ?_, fun h1 habs hga => ?_, fun qn h => ?_, fun h1 h2 h3 => ?_⟩
  · simp only [visitClassDeclaration, visitClassDeclarationGo, h]
  · simp only [visitClassDeclaration, visitClassDeclarationGo, h1, habs,
      Bool.false_eq_true, if_false, hga]
  · simp only [ModelManager.getType, h]
  · simp only [checkItem, h1, Bool.false_eq_true, if_false, h2, h3,
      reportFieldTypeViolationV, renderForReport]

/-- C5 counterexample: the claim as stated is false, because a validation in
which the runtime type of an embedded field value is absent from the
declaration graph fails with a field-type violation, not with a propagated
TypeNotFound error. -/
theorem c5_counterexample :
    visitClassDeclaration 6 testModel opts0 carDecl
      (.vResource "org.acme.l3.Car" "C1"
        [("id", .vString "C1"), ("model", .vString "M"),
         ("numberOfWheels", .vNumber (.fin 4)), ("milage", .vNumber (.fin 3)),
         ("singlePerson", .vResource "org.acme.gone.T" "X" [])]) "TEST" =
      .error (.fieldTypeViolation "org.acme.l3.Car#C1" "singlePerson"
        "org.acme.gone.T#X" "org.acme.gone.T" "org.acme.l1.Person") ∧
    Violation.isTypeNotFound
      (.fieldTypeViolation "org.acme.l3.Car#C1" "singlePerson"
        "org.acme.gone.T#X" "org.acme.gone.T" "org.acme.l1.Person") = false :=
  ⟨by rfl, rfl⟩

/-- C5 witness: deleting the org.acme.l1 namespace makes validation of a
Vehicle instance fail with the TypeNotFound for the vanished superclass,
deleting org.acme.l3 makes validation of a Car instance fail with the
TypeNotFound for the vanished runtime type (both named types carry the
deleted namespace), and a missing runtime type during item checking is
reported as a field-type violation. -/
theorem c5_witness :
    visitClassDeclaration 6 testModelNoL1 opts0 vehicleDecl
      (.vResource "org.acme.l2.Vehicle" "ABC" [("id", .vString "ABC")]) "ABC" =
      .error (.typeNotFound "org.acme.l1.Base") ∧
    visitClassDeclaration 6 testModelNoL3 opts0 vehicleDecl
      (.vResource "org.acme.l3.Car" "ABC" [("id", .vString "ABC")]) "ABC" =
      .error (.typeNotFound "org.acme.l3.Car") ∧
    namespaceOf "org.acme.l1.Base" = "org.acme.l1" ∧
    namespaceOf "org.acme.l3.Car" = "org.acme.l3" ∧
    checkItem (recurseAt 5 testModel opts0) 5 testModel opts0 singlePersonField
      (.vResource "org.acme.gone.T" "X" []) "TEST" =
      .error (.fieldTypeViolation "TEST" "singlePerson" "org.acme.gone.T#X"
        "org.acme.gone.T" "org.acme.l1.Person") :=
  ⟨(c5_typenotfound_propagation 5 5 testModelNoL1 opts0 vehicleDecl
      "org.acme.l2.Vehicle" "ABC" "ABC" "x" "x" [("id", .vString "ABC")] []
      (.typeNotFound "org.acme.l1.Base") vehicleDecl singlePersonField
      (recurseAt 5 testModelNoL1 opts0)).2.1 rfl rfl (by rfl),
   (c5_typenotfound_propagation 5 5 testModelNoL3 opts0 vehicleDecl
      "org.acme.l3.Car" "ABC" "ABC" "x" "x" [("id", .vString "ABC")] []
      (.typeNotFound "org.acme.l3.Car") vehicleDecl singlePersonField
      (recurseAt 5 testModelNoL3 opts0)).1 (by rfl),
   by rfl,
   by rfl,
   (c5_typenotfound_propagation 4 5 testModel opts0 carDecl
      "x" "x" "TEST" "org.acme.gone.T" "X" [] []
      (.typeNotFound "org.acme.gone.T") personDecl singlePersonField
      (recurseAt 5 testModel opts0)).2.2.2 rfl rfl (by rfl)⟩

/-- C7: for a Concept or Resource value validated against its resolved class
declaration, the first key of the value not in the flattened field set of
the resolved declaration raises UndeclaredProperty naming the key and the
resolved type (carrying the plain identifier of the value, which is the
undefined string for concepts); and the check passes exactly when every key
is either the identifier-shadow key or a declared field name, so that the
shadow key is the one exemption and no other key (dollar-prefixed or not) is
exempt. -/
theorem c7_undeclared_property
    (recurse : ClassDecl → Value → String → Except Violation Unit)
    (fuel : Nat) (mm : ModelManager) (opts : Options) (d : ClassDecl)
    (t sh root : String) (props : List (String × Value))
    (c : ClassDecl) (fields : List FieldDecl) (k : String) (v : Value) :
    (mm.getType t = .ok (.cls c) → c.isAbstract = false →
      getAllFields fuel mm c = .ok fields →
      props.find? (fun kv => !(kv.1 == "$identifier") &&
        !((fields.map (fun f => f.name)).contains kv.1)) = some (k, v) →
      visitClassDeclarationGo recurse fuel mm opts d (.vResource t sh props) root =
        .error (.undeclaredField sh k c.fqn)) ∧
    (mm.getType t = .ok (.cls c) → c.isAbstract = false →
      getAllFields fuel mm c = .ok fields →
      props.find? (fun kv => !(kv.1 == "$identifier") &&
        !((fields.map (fun f => f.name)).contains kv.1)) = some (k, v) →
      visitClassDeclarationGo recurse fuel mm opts d (.vConcept t props) root =
        .error (.undeclaredField "undefined" k c.fqn)) ∧
    (∀ ownerId clsFqn,
      undeclaredCheck ownerId (fields.map (fun f => f.name)) clsFqn props = .ok () ↔
        ∀ kv ∈ props, kv.1 = "$identifier" ∨ kv.1 ∈ fields.map (fun f => f.name)) := by
  refine ⟨fun h1 habs hga hf => ?_, fun h1 habs hga hf => ?_, fun ownerId clsFqn => ?_⟩
  · simp only [visitClassDeclarationGo, h1, habs, Bool.false_eq_true, if_false, hga,
      undeclaredCheck, hf]
  · simp only [visitClassDeclarationGo, h1, habs, Bool.false_eq_true, if_false, hga,
      undeclaredCheck, hf]
  · constructor
    · intro h kv hkv
      cases hf : props.find? (fun kv => !(kv.1 == "$identifier") &&
          !((fields.map (fun f => f.name)).contains kv.1)) with
      | some kv2 =>
        simp only [undeclaredCheck, hf] at h
        exact Except.noConfusion h
      | none =>
        have hp := List.find?_eq_none.mp hf kv hkv
        simpa [not_or, or_iff_not_imp_left] using hp
    · intro hall
      have hf : props.find? (fun kv => !(kv.1 == "$identifier") &&
          !((fields.map (fun f => f.name)).contains kv.1)) = none := by
        refine List.find?_eq_none.mpr (fun kv hkv => ?_)
        have := hall kv hkv
        simpa [not_or, or_iff_not_imp_left] using this
      simp only [undeclaredCheck, hf]

/-- C7 witness: the extra key foo on a Car resource raises UndeclaredProperty
naming foo and the resolved Car type, the dollar-prefixed extra key on a
Data concept is likewise reported (dollar-prefixed keys are not exempt), and
a property map whose keys are the shadow key and a declared field passes the
check. -/
theorem c7_witness :
    visitClassDeclarationGo (recurseAt 5 testModel opts0) 5 testModel opts0 vehicleDecl
      (.vResource "org.acme.l3.Car" "ABC"
        [("id", .vString "ABC"), ("foo", .vString "Baz")]) "ABC" =
      .error (.undeclaredField "ABC" "foo" "org.acme.l3.Car") ∧
    visitClassDeclarationGo (recurseAt 5 testModel opts0) 5 testModel opts0 dataDecl
      (.vConcept "org.acme.l1.Data"
        [("name", .vString "name"), ("$numberOfWipers", .vNumber (.fin 2))]) "ABC" =
      .error (.undeclaredField "undefined" "$numberOfWipers" "org.acme.l1.Data") ∧
    undeclaredCheck "ABC"
      ((baseDecl.ownFields ++ vehicleDecl.ownFields ++ carDecl.ownFields).map
        (fun f => f.name)) "org.acme.l3.Car"
      [("$identifier", .vString "ABC"), ("id", .vString "ABC")] = .ok () :=
  ⟨(c7_undeclared_property (recurseAt 5 testModel opts0) 5 testModel opts0 vehicleDecl
      "org.acme.l3.Car" "ABC" "ABC"
      [("id", .vString "ABC"), ("foo", .vString "Baz")] carDecl
      (baseDecl.ownFields ++ vehicleDecl.ownFields ++ carDecl.ownFields)
      "foo" (.vString "Baz")).1 rfl rfl (by rfl) (by rfl),
   (c7_undeclared_property (recurseAt 5 testModel opts0) 5 testModel opts0 dataDecl
      "org.acme.l1.Data" "x" "ABC"
      [("name", .vString "name"), ("$numberOfWipers", .vNumber (.fin 2))] dataDecl
      dataDecl.ownFields "$numberOfWipers" (.vNumber (.fin 2))).2.1
      rfl rfl (by rfl) (by rfl),
   ((c7_undeclared_property (recurseAt 5 testModel opts0) 5 testModel opts0 vehicleDecl
      "org.acme.l3.Car" "ABC" "ABC"
      [("$identifier", .vString "ABC"), ("id", .vString "ABC")] carDecl
      (baseDecl.ownFields ++ vehicleDecl.ownFields ++ carDecl.ownFields)
      "x" (.vString "x")).2.2 "ABC" "org.acme.l3.Car").mpr (by decide)⟩

end Concerto
